import Mathlib

/-!
Verification development for the AdEasy generation-pipeline backend.

Shallow embedding of the deterministic orchestration/supervision logic:
* `backend/pipeline/tools/reflection.py` — the quality gate (`reflection_tool`):
  retry counting, retry-patch history, flattened config overrides in Redis.
* `backend/pipeline/supervisor.py` — `SupervisorAgent.reflect_and_route`'s
  exception fallback and `_get_default_next`.
* `backend/pipeline/graph.py` — step-node error conversion, `supervisor_node`
  state update and the `route_next` conditional router.
* `backend/pipeline/node_utils.py` — `qc_video_node`'s failure branch.
* `backend/pipeline/vram_manager.py` — `VRAMManager` load/unload/cleanup.
* `backend/app/api/routes/tasks.py` — `submit_feedback`.
* `backend/app/api/routes/ws.py` — `websocket_task`'s delivery loop.

External effects (the LLM judgment call, Redis, torch) are passed in as
explicit values: the judge's parsed output is an `Option JudgeResult`
argument, Redis keys become record fields, and the CUDA memory readings
become integer fields of the state.
-/

namespace AdEasy

/-! ## JSON-ish values and configuration patches

`config_patch` in `reflection.py` is a parsed JSON object
`{category: settings}` where `settings` is usually a nested object
`{key: value}`.  Values are scalars; `reflection_tool` stores them in the
override hash with Python `str(value)`. -/

/-- A scalar JSON value as it appears in a judge `config_patch`. -/
inductive JVal where
  | str (s : String)
  | num (n : Int)
  | bool (b : Bool)
  deriving DecidableEq, Repr

/-- Python `str(value)` on a parsed JSON scalar. -/
def JVal.toPyStr : JVal → String
  | .str s => s
  | .num n => toString n
  | .bool b => if b then "True" else "False"

/-- The value under one top-level key of a `config_patch`: either a nested
settings object or a bare scalar (only nested objects are flattened into
the override hash, mirroring the `isinstance(settings, dict)` guard). -/
inductive PatchVal where
  | scalar (v : JVal)
  | table (settings : List (String × JVal))
  deriving DecidableEq, Repr

/-- A `config_patch` JSON object: `category → settings`. -/
abbrev Patch := List (String × PatchVal)

/-- Dict lookup `patch.get(category, {})`, returning the nested settings
when the stored value is an object and `{}` otherwise. -/
def Patch.getTable (p : Patch) (category : String) : List (String × JVal) :=
  match p.find? (fun kv => kv.1 = category) with
  | some (_, .table settings) => settings
  | _ => []

/-! ## The quality gate: `reflection_tool` (backend/pipeline/tools/reflection.py)

The deterministic part of `reflection_tool` is a function of
* the per-step Redis state (`retry_count:{task}:{step}`,
  `retry_history:{task}:{step}`, `task:{task}:config`), and
* the judge's output once parsed by `extract_json_from_text`
  (`none` when parsing fails).
-/

/-- The judge (GPT-4o) output once parsed: the optional `"decision"` string
and the optional `"config_patch"` object (`config_patch` counts only when
present and a dict, per the `isinstance(result["config_patch"], dict)`
guard). -/
structure JudgeResult where
  decision : Option String
  config_patch : Option Patch
  deriving DecidableEq, Repr

/-- Per-(task, step) retry state held in Redis by `reflection_tool`:
the retry counter (`get` of an absent key reads as 0), the patch history
list, and the flattened config-override hash `task:{task_id}:config`. -/
structure RetryState where
  retry_count : Nat
  history : List Patch
  overrides : List (String × String)
  deriving DecidableEq, Repr

/-- Redis `HSET`: overwrite the field if present, else append it. -/
def hset (m : List (String × String)) (field val : String) : List (String × String) :=
  if m.any (fun kv => kv.1 = field) then
    m.map (fun kv => if kv.1 = field then (field, val) else kv)
  else
    m ++ [(field, val)]

/-- The flattening loop of `reflection_tool`: for each `category` whose
settings are a dict, store `"{category}:{key}" → str(value)` in the
override hash. -/
def flattenPatchInto (ov : List (String × String)) (patch : Patch) : List (String × String) :=
  patch.foldl
    (fun acc kv =>
      match kv.2 with
      | .scalar _ => acc
      | .table settings =>
          settings.foldl (fun a s => hset a (kv.1 ++ ":" ++ s.1) s.2.toPyStr) acc)
    ov

/-- The decision string `reflection_tool` acts on and returns:
`extract_json_from_text` failure is replaced by a `{"decision": "proceed"}`
fallback, and a parsed object without a `"decision"` key defaults to
`"proceed"` via `result.get("decision", "proceed")`. -/
def effectiveDecision (out : Option JudgeResult) : String :=
  match out with
  | none => "proceed"
  | some r => r.decision.getD "proceed"

/-- The decision field of the verdict JSON string `reflection_tool` returns. -/
def reflectionVerdict (out : Option JudgeResult) : String :=
  effectiveDecision out

/-- The Redis update `reflection_tool` performs after the judgment call:
on `"retry"` increment the counter, and when a patch object is present
append it to the history and flatten it into the override hash;
on `"proceed"` or `"fail"` delete the counter and history keys (the
override hash is kept); any other decision string leaves everything
untouched. -/
def reflectionUpdate (st : RetryState) (out : Option JudgeResult) : RetryState :=
  let decision := effectiveDecision out
  if decision = "retry" then
    let st1 : RetryState := { st with retry_count := st.retry_count + 1 }
    match out with
    | some r =>
      match r.config_patch with
      | some patch =>
          { st1 with
              history := st1.history ++ [patch],
              overrides := flattenPatchInto st1.overrides patch }
      | none => st1
    | none => st1
  else if decision = "proceed" ∨ decision = "fail" then
    { st with retry_count := 0, history := [] }
  else
    st

/-- The prompt-context branch `reflection_tool` selects before calling the
judge.  The ceiling and the anti-repetition rules live here, as
instructions rendered into the prompt, not as a mechanical override. -/
inductive RetryContext where
  | forceFail
  | forceGridAfterResolutionOnly
  | differentApproach
  | toolbox
  deriving DecidableEq, Repr

/-- The `only_resolution_changed` heuristic: the last attempted patch has a
`segmentation` object that is non-empty, contains `"resolution"` and lacks
`"prompt_mode"`. -/
def onlyResolutionChanged (attempted_configs : List Patch) : Bool :=
  match attempted_configs.getLast? with
  | none => false
  | some last =>
    let seg_cfg := last.getTable "segmentation"
    decide (seg_cfg ≠ [] ∧
      (∃ kv ∈ seg_cfg, kv.1 = "resolution") ∧
      ¬ (∃ kv ∈ seg_cfg, kv.1 = "prompt_mode"))

/-- Selection of `retry_context` in `reflection_tool`: at
`current_retry >= 2` the prompt carries the force-fail instruction; at
`current_retry == 1` either the forced-grid or the different-approach
instruction depending on the heuristic; otherwise the parameter toolbox. -/
def retryContext (current_retry : Nat) (attempted_configs : List Patch) : RetryContext :=
  if 2 ≤ current_retry then .forceFail
  else if current_retry = 1 then
    if onlyResolutionChanged attempted_configs then .forceGridAfterResolutionOnly
    else .differentApproach
  else .toolbox

/-! ## Supervisor (backend/pipeline/supervisor.py) -/

/-- The dict returned by `SupervisorAgent.reflect_and_route`. -/
structure SupervisorOutput where
  reflection : String
  decision : String
  next_step : String
  config_patch : Patch
  deriving DecidableEq, Repr

/-- `SupervisorAgent._get_default_next`: the successor of `current_step` in
`["start", "step1", "step2", "step3", "end"]`, and `"end"` when the step is
unknown or last. -/
def getDefaultNext (current_step : String) : String :=
  let steps := ["start", "step1", "step2", "step3", "end"]
  match steps.indexOf? current_step with
  | some idx => if idx + 1 < steps.length then steps.getD (idx + 1) "end" else "end"
  | none => "end"

/-- A step result dict as summarized by `reflect_and_route`: it may carry an
`"error"` key, a `"metadata"` key, or neither. -/
inductive StepRes where
  | withError (e : String)
  | withMetadata (m : String)
  | plain
  deriving DecidableEq, Repr

/-- `reflect_and_route`'s `result_summary` of the last result for the
current step (`none` models an empty/missing dict). -/
def resultSummary : Option StepRes → String
  | none => "N/A"
  | some (.withError e) => "Error: " ++ e
  | some (.withMetadata m) => "Success - " ++ m
  | some .plain => "Success"

/-- The fallback dict `reflect_and_route` returns when the LLM chain raises:
decision `"proceed"`, next step from `_get_default_next`. -/
def supervisorFallback (current_step : String) (errText : String) : SupervisorOutput :=
  { reflection := "Supervisor error: " ++ errText ++ ". Proceeding to next step.",
    decision := "proceed",
    next_step := getDefaultNext current_step,
    config_patch := [] }

/-! ## Graph nodes (backend/pipeline/graph.py) -/

/-- The step-result entry a step node (`node_step1` / `node_step2` /
`node_step3`) records under its step name: the executor's result on
success, and `{"error": str(e)}` when `execute` raises. -/
def nodeStepRecord (outcome : Except String StepRes) : StepRes :=
  match outcome with
  | .ok r => r
  | .error e => .withError e

/-- The unconditional edges of the compiled graph: every step node feeds
the supervisor node. -/
def graphEdges : List (String × String) :=
  [("step1", "supervisor"), ("step2", "supervisor"), ("step3", "supervisor")]

/-- The state fields `supervisor_node` reads and writes. -/
structure GraphState where
  next_step : Option String
  config : List (String × PatchVal)
  retry_count : List (String × Nat)
  current_step : Option String
  deriving Repr

/-- Dict `get` with default on an association list. -/
def aget (m : List (String × Nat)) (k : String) : Nat :=
  match m.find? (fun kv => kv.1 = k) with
  | some kv => kv.2
  | none => 0

/-- Dict assignment `m[k] = v` on an association list. -/
def aset (m : List (String × Nat)) (k : String) (v : Nat) : List (String × Nat) :=
  if m.any (fun kv => kv.1 = k) then
    m.map (fun kv => if kv.1 = k then (k, v) else kv)
  else
    m ++ [(k, v)]

/-- The retry-count update in `supervisor_node`: increment the current
step's counter when the decision is `"retry"`, leave the dict alone
otherwise (it is never cleared there). -/
def supervisorNodeRetries (retries : List (String × Nat)) (current_step : String)
    (decision : String) : List (String × Nat) :=
  if decision = "retry" then
    aset retries current_step (aget retries current_step + 1)
  else
    retries

/-- `route_next` in `graph.py`: read `next_step` (default `"end"`), return
it when it is `"end"` or one of the three step names, else default to
`"end"` with a warning. -/
def route_next (next_step : Option String) : String :=
  let ns := next_step.getD "end"
  if ns = "end" then "end"
  else if ns ∈ ["step1", "step2", "step3"] then ns
  else "end"

/-! ## `qc_video_node` (backend/pipeline/node_utils.py)

The node receives the state after `video_gen_node`.  When the state carries
an error or no raw video path it returns `{"last_qc_decision": "retry",
"failed_step": "video_gen"}` without invoking `reflection_tool`; otherwise
it invokes `reflection_tool` and returns its decision.  The embedding
returns, alongside the decision, whether the reflection tool was invoked. -/

/-- The output fields of `qc_video_node` plus an explicit flag recording
whether `reflection_tool.invoke` was reached. -/
structure QCVideoOutput where
  gate_invoked : Bool
  last_qc_decision : String
  failed_step : Option String
  deriving DecidableEq, Repr

/-- `qc_video_node` as a function of the state's `error` and
`raw_video_path` fields and of the verdict the reflection tool would
return on the valid path. -/
def qc_video_node (error : Option String) (raw_video_path : String)
    (gateDecision : String) : QCVideoOutput :=
  if error.isSome ∨ raw_video_path = "" then
    { gate_invoked := false, last_qc_decision := "retry", failed_step := some "video_gen" }
  else
    { gate_invoked := true,
      last_qc_decision := gateDecision,
      failed_step := if gateDecision ≠ "proceed" then some "video_gen" else none }

/-! ## Resource ledger: `VRAMManager` (backend/pipeline/vram_manager.py)

State: the `loaded_models` registry (insertion-ordered name → loader, the
loader carrying the VRAM footprint its `load()` allocates), the current
free-VRAM reading, the reclaimable CUDA cache, and the configured
`free_gb_required` threshold.  `load_calls` counts invocations of an
underlying `loader.load()`. -/

/-- `VRAMManager` state. -/
structure VRAMState where
  loaded_models : List (String × Int)
  free_gb : Int
  cached_gb : Int
  free_gb_required : Int
  load_calls : Nat
  deriving DecidableEq, Repr

/-- Names in the `loaded_models` registry. -/
def VRAMState.names (st : VRAMState) : List String :=
  st.loaded_models.map Prod.fst

/-- `VRAMManager.cleanup`: `torch.cuda.empty_cache()` plus `gc.collect()`
reclaim the cached (reserved-but-unallocated) memory; the `loaded_models`
registry is not touched and no model is unloaded. -/
def VRAMState.cleanup (st : VRAMState) : VRAMState :=
  { st with free_gb := st.free_gb + st.cached_gb, cached_gb := 0 }

/-- `VRAMManager.load_model name loader`: return early when the name is
already in the registry; otherwise run `cleanup` when the free reading is
below `free_gb_required`, then call `loader.load()` (allocating its
footprint) and record the loader under the name. -/
def VRAMState.load_model (st : VRAMState) (name : String) (footprint : Int) : VRAMState :=
  if name ∈ st.names then st
  else
    let st1 := if st.free_gb < st.free_gb_required then st.cleanup else st
    { st1 with
        loaded_models := st1.loaded_models ++ [(name, footprint)],
        free_gb := st1.free_gb - footprint,
        load_calls := st1.load_calls + 1 }

/-- `VRAMManager.unload_model`: no-op when the name is not registered;
otherwise call `loader.unload()` (freeing its footprint), delete the entry
and run `cleanup`. -/
def VRAMState.unload_model (st : VRAMState) (name : String) : VRAMState :=
  match st.loaded_models.find? (fun kv => kv.1 = name) with
  | none => st
  | some kv =>
      VRAMState.cleanup
        { st with
            loaded_models := st.loaded_models.filter (fun e => e.1 ≠ name),
            free_gb := st.free_gb + kv.2 }

/-! ## `submit_feedback` (backend/app/api/routes/tasks.py) -/

/-- The persisted per-task status record (`RedisManager.set_status`
payload, as read back by `get_status`). -/
structure TaskStatus where
  status : String
  message : String
  user_feedback : Option String
  action : Option String
  deriving DecidableEq, Repr

/-- What the `submit_feedback` route produces: the new persisted status,
the events published on the task channel, whether `resume_video_task` was
enqueued, the HTTP response body status, and whether any error was raised
back to the client. -/
structure FeedbackEffect where
  persisted : Option TaskStatus
  published_types : List String
  resume_triggered : Bool
  response_status : String
  raised_error : Bool
  deriving DecidableEq, Repr

/-- `submit_feedback task_id feedback action` as a function of the
previously persisted status: it unconditionally overwrites the status with
`"feedback_received"`, publishes `human_input_received`, enqueues the
resume task and answers `"resuming"` — no status check is performed and no
error is raised whatever the previous status was. -/
def submit_feedback (prev : Option TaskStatus) (feedback action : String) : FeedbackEffect :=
  let _ := prev
  { persisted := some
      { status := "feedback_received",
        message := "User provided feedback. Resuming...",
        user_feedback := some feedback,
        action := some action },
    published_types := ["human_input_received"],
    resume_triggered := true,
    response_status := "resuming",
    raised_error := false }

/-! ## WebSocket event delivery (backend/app/api/routes/ws.py)

`websocket_task` keeps a local `seq_id` starting at 0.  After subscribing
it reads the persisted status; when one exists it sends an initial
synthesized `status` frame with `seq_id = 1`.  It then loops over pubsub
messages, incrementing `seq_id` and sending a frame for every message of
type `"message"` (other pubsub notifications are skipped). -/

/-- A raw pubsub notification from Redis. -/
structure PubSubMsg where
  mtype : String
  data : String
  deriving DecidableEq, Repr

/-- The payload of a frame sent over the websocket. -/
inductive WsPayload where
  | statusEvent (status : String) (message : String)
  | live (data : String)
  deriving DecidableEq, Repr

/-- A `{"seq": seq_id, "data": ...}` frame. -/
structure WsFrame where
  seq : Nat
  data : WsPayload
  deriving DecidableEq, Repr

/-- The pubsub loop of `websocket_task`, threading the current `seq_id`. -/
def wsLoop (seq_id : Nat) : List PubSubMsg → List WsFrame
  | [] => []
  | m :: rest =>
      if m.mtype = "message" then
        ⟨seq_id + 1, .live m.data⟩ :: wsLoop (seq_id + 1) rest
      else
        wsLoop seq_id rest

/-- All frames `websocket_task` sends for a connection, given the persisted
status at subscribe time and the pubsub messages received afterwards. -/
def wsDeliver (persisted : Option TaskStatus) (msgs : List PubSubMsg) : List WsFrame :=
  match persisted with
  | some s => ⟨1, .statusEvent s.status s.message⟩ :: wsLoop 1 msgs
  | none => wsLoop 0 msgs

/-! ## Concrete fixtures used by counterexamples and witnesses -/

/-- A retry patch in the judge's documented shape:
`{"segmentation": {"resolution": 1024}}`. -/
def patchP1 : Patch := [("segmentation", .table [("resolution", .num 1024)])]

/-- A judge output with decision `"retry"` and no patch. -/
def retryOutPlain : JudgeResult := ⟨some "retry", none⟩

/-- A judge output with decision `"retry"` carrying `patchP1`. -/
def retryOutP1 : JudgeResult := ⟨some "retry", some patchP1⟩

/-- A judge output with decision `"proceed"`. -/
def proceedOut : JudgeResult := ⟨some "proceed", none⟩

/-- A persisted status snapshot of a running task. -/
def sampleStatus : TaskStatus :=
  { status := "processing", message := "Step 2 running", user_feedback := none, action := none }

/-- A pubsub trace: two payload messages around a non-payload notification. -/
def sampleMsgs : List PubSubMsg :=
  [⟨"message", "tok"⟩, ⟨"subscribe", ""⟩, ⟨"message", "done"⟩]

end AdEasy

namespace AdEasy

/-! ## Helper lemmas -/

/-- Unfolding of `load_model` on a name absent from the registry: the
cleanup pass (taken when the free reading is under the threshold) only
moves cached memory, after which the loader is loaded and registered. -/
theorem load_model_not_mem (st : VRAMState) (name : String) (fp : Int)
    (h : name ∉ st.names) :
    st.load_model name fp =
      { loaded_models := st.loaded_models ++ [(name, fp)],
        free_gb := (if st.free_gb < st.free_gb_required then st.free_gb + st.cached_gb
                    else st.free_gb) - fp,
        cached_gb := if st.free_gb < st.free_gb_required then 0 else st.cached_gb,
        free_gb_required := st.free_gb_required,
        load_calls := st.load_calls + 1 } := by
  by_cases hc : st.free_gb < st.free_gb_required <;>
    simp [VRAMState.load_model, VRAMState.cleanup, h, hc]

/-- Every frame produced by the pubsub loop carries a sequence number
strictly above the `seq_id` the loop started from. -/
theorem wsLoop_mem_lt (msgs : List PubSubMsg) :
    ∀ seq_id : Nat, ∀ f ∈ wsLoop seq_id msgs, seq_id < f.seq := by
  induction msgs with
  | nil => intro s f hf; simp [wsLoop] at hf
  | cons m rest ih =>
      intro s f hf
      by_cases hm : m.mtype = "message"
      · simp only [wsLoop, if_pos hm, List.mem_cons] at hf
        rcases hf with hf | hf
        · subst hf; exact Nat.lt_succ_self s
        · exact Nat.lt_of_succ_lt (ih (s + 1) f hf)
      · simp only [wsLoop, if_neg hm] at hf
        exact ih s f hf

/-- The pubsub loop emits frames with pairwise strictly increasing
sequence numbers. -/
theorem wsLoop_pairwise (msgs : List PubSubMsg) :
    ∀ seq_id : Nat, List.Pairwise (fun a b => a.seq < b.seq) (wsLoop seq_id msgs) := by
  induction msgs with
  | nil => intro s; simp [wsLoop]
  | cons m rest ih =>
      intro s
      by_cases hm : m.mtype = "message"
      · simp only [wsLoop, if_pos hm]
        exact List.Pairwise.cons (fun b hb => wsLoop_mem_lt rest (s + 1) b hb) (ih (s + 1))
      · simp only [wsLoop, if_neg hm]
        exact ih s

/-! ## Claim C1 -/

/-- C1 counterexample: with the retry counter already at 2, a judge output
whose decision is `"retry"` makes `reflection_tool` return a `retry`
verdict — not the forced escalation the claim requires — and the counter
is incremented to 3 and then 4, past the ceiling of 3. -/
theorem C1_counterexample :
    reflectionVerdict (some retryOutPlain) = "retry" ∧
    ¬ reflectionVerdict (some retryOutPlain) = "fail" ∧
    (reflectionUpdate ⟨2, [], []⟩ (some retryOutPlain)).retry_count = 3 ∧
    (reflectionUpdate (reflectionUpdate ⟨2, [], []⟩ (some retryOutPlain))
        (some retryOutPlain)).retry_count = 4 := by
  decide

/-- C1 (amended): once the retry count reaches 2 the quality gate only
renders the mandatory force-fail instruction into the judge prompt; the
verdict it produces is still the judge's returned decision, and a judge
that answers `retry` anyway gets its retry counter incremented past the
ceiling with no mechanical escalation override. -/
theorem C1_retry_ceiling_amended (st : RetryState) (out : JudgeResult)
    (h2 : 2 ≤ st.retry_count) (hr : out.decision = some "retry") :
    retryContext st.retry_count st.history = .forceFail ∧
    reflectionVerdict (some out) = "retry" ∧
    (reflectionUpdate st (some out)).retry_count = st.retry_count + 1 := by
  obtain ⟨d, p⟩ := out
  simp only [JudgeResult.decision] at hr
  subst hr
  refine ⟨?_, rfl, ?_⟩
  · simp [retryContext, h2]
  · cases p <;> simp [reflectionUpdate, effectiveDecision]

/-- Witness for `C1_retry_ceiling_amended` at retry count 2 and a plain
retry judge output. -/
theorem C1_retry_ceiling_amended_witness :
    2 ≤ (2 : Nat) ∧
    (retryContext 2 [] = .forceFail ∧
     reflectionVerdict (some retryOutPlain) = "retry" ∧
     (reflectionUpdate ⟨2, [], []⟩ (some retryOutPlain)).retry_count = 2 + 1) :=
  ⟨by decide, C1_retry_ceiling_amended ⟨2, [], []⟩ retryOutPlain (by decide) rfl⟩

/-! ## Claim C2 -/

/-- C2 counterexample: `submit_feedback` on an instance persisted as
`processing` (not paused) raises no error, answers `resuming`, enqueues the
resume task, and overwrites the persisted state. -/
theorem C2_counterexample :
    (submit_feedback (some ⟨"processing", "Running step 2", none, none⟩)
        "object clipped" "retry").raised_error = false ∧
    (submit_feedback (some ⟨"processing", "Running step 2", none, none⟩)
        "object clipped" "retry").response_status = "resuming" ∧
    (submit_feedback (some ⟨"processing", "Running step 2", none, none⟩)
        "object clipped" "retry").resume_triggered = true ∧
    ¬ (submit_feedback (some ⟨"processing", "Running step 2", none, none⟩)
        "object clipped" "retry").persisted = some ⟨"processing", "Running step 2", none, none⟩ := by
  decide

/-- C2 (amended): `submit_feedback` performs no paused-state validation.
For every previously persisted status it raises no error, overwrites the
status record with `feedback_received`, publishes `human_input_received`,
enqueues the resume task and answers `resuming`. -/
theorem C2_feedback_unvalidated_amended (prev : Option TaskStatus) (feedback action : String) :
    (submit_feedback prev feedback action).raised_error = false ∧
    (submit_feedback prev feedback action).response_status = "resuming" ∧
    (submit_feedback prev feedback action).resume_triggered = true ∧
    (submit_feedback prev feedback action).published_types = ["human_input_received"] ∧
    (submit_feedback prev feedback action).persisted.map TaskStatus.status
      = some "feedback_received" :=
  ⟨rfl, rfl, rfl, rfl, rfl⟩

/-! ## Claim C3 -/

/-- C3 counterexample: two consecutive retry verdicts carrying the
structurally identical patch `patchP1` leave the step's history as
`[patchP1, patchP1]` — the repeat is appended, not rejected, and the
history has two consecutive structurally equal entries. -/
theorem C3_counterexample :
    (reflectionUpdate (reflectionUpdate ⟨0, [], []⟩ (some retryOutP1))
        (some retryOutP1)).history = [patchP1, patchP1] ∧
    (reflectionUpdate (reflectionUpdate ⟨0, [], []⟩ (some retryOutP1))
        (some retryOutP1)).history.get? 0
      = (reflectionUpdate (reflectionUpdate ⟨0, [], []⟩ (some retryOutP1))
            (some retryOutP1)).history.get? 1 ∧
    (reflectionUpdate (reflectionUpdate ⟨0, [], []⟩ (some retryOutP1))
        (some retryOutP1)).history.get? 0 = some patchP1 := by
  decide

/-- C3 (amended): on every retry verdict carrying a patch, the patch is
appended to the step's history unconditionally, identical to a prior entry
or not; rejection of repeats exists only as prompt guidance rendered for
the judge, not as a mechanical check. -/
theorem C3_patch_append_amended (st : RetryState) (out : JudgeResult) (p : Patch)
    (hd : out.decision = some "retry") (hp : out.config_patch = some p) :
    (reflectionUpdate st (some out)).history = st.history ++ [p] := by
  obtain ⟨d, cp⟩ := out
  simp only [JudgeResult.decision, JudgeResult.config_patch] at hd hp
  subst hd; subst hp
  simp [reflectionUpdate, effectiveDecision]

/-- Witness for `C3_patch_append_amended`: a repeat of `patchP1` against a
history already containing `patchP1`. -/
theorem C3_patch_append_amended_witness :
    retryOutP1.decision = some "retry" ∧
    retryOutP1.config_patch = some patchP1 ∧
    (reflectionUpdate ⟨1, [patchP1], []⟩ (some retryOutP1)).history = [patchP1] ++ [patchP1] :=
  ⟨rfl, rfl, C3_patch_append_amended ⟨1, [patchP1], []⟩ retryOutP1 patchP1 rfl rfl⟩

/-! ## Claim C4 -/

/-- C4: a judgment output that cannot be parsed (`extract_json_from_text`
returns nothing), or parses without a decision field, yields a `proceed`
verdict, and the supervisor's exception fallback likewise decides
`proceed`: a malformed judgment never stalls the pipeline. -/
theorem C4_parse_failure_fail_open (st : RetryState) (p : Option Patch)
    (current_step errText : String) :
    reflectionVerdict none = "proceed" ∧
    reflectionVerdict (some ⟨none, p⟩) = "proceed" ∧
    (supervisorFallback current_step errText).decision = "proceed" ∧
    (reflectionUpdate st none).retry_count = 0 := by
  refine ⟨rfl, rfl, rfl, ?_⟩
  simp [reflectionUpdate, effectiveDecision]

/-! ## Claim C5 -/

/-- C5: a retry verdict carrying a patch appends it to the step's history,
increments the step's retry counter by exactly one and merges the patch
into the flattened override hash; a proceed or fail (escalate) verdict
clears the counter and the history while leaving the override hash — the
already-applied winning configuration — untouched. -/
theorem C5_gate_state_update (st : RetryState) (outR outP : JudgeResult) (p : Patch)
    (hdR : outR.decision = some "retry") (hpR : outR.config_patch = some p)
    (hdP : outP.decision = some "proceed" ∨ outP.decision = some "fail") :
    (reflectionUpdate st (some outR)).history = st.history ++ [p] ∧
    (reflectionUpdate st (some outR)).retry_count = st.retry_count + 1 ∧
    (reflectionUpdate st (some outR)).overrides = flattenPatchInto st.overrides p ∧
    (reflectionUpdate st (some outP)).retry_count = 0 ∧
    (reflectionUpdate st (some outP)).history = [] ∧
    (reflectionUpdate st (some outP)).overrides = st.overrides := by
  obtain ⟨dR, cpR⟩ := outR
  obtain ⟨dP, cpP⟩ := outP
  simp only [JudgeResult.decision, JudgeResult.config_patch] at hdR hpR hdP
  subst hdR; subst hpR
  rcases hdP with h | h <;> subst h <;>
    refine ⟨by simp [reflectionUpdate, effectiveDecision],
            by simp [reflectionUpdate, effectiveDecision],
            by simp [reflectionUpdate, effectiveDecision],
            by simp [reflectionUpdate, effectiveDecision],
            by simp [reflectionUpdate, effectiveDecision],
            by simp [reflectionUpdate, effectiveDecision]⟩

/-- Witness for `C5_gate_state_update`: a retry with `patchP1` and a
proceed, both against a step one retry in. -/
theorem C5_gate_state_update_witness :
    retryOutP1.decision = some "retry" ∧
    retryOutP1.config_patch = some patchP1 ∧
    (proceedOut.decision = some "proceed" ∨ proceedOut.decision = some "fail") ∧
    ((reflectionUpdate ⟨1, [patchP1], []⟩ (some retryOutP1)).history = [patchP1] ++ [patchP1] ∧
     (reflectionUpdate ⟨1, [patchP1], []⟩ (some retryOutP1)).retry_count = 1 + 1 ∧
     (reflectionUpdate ⟨1, [patchP1], []⟩ (some retryOutP1)).overrides
        = flattenPatchInto [] patchP1 ∧
     (reflectionUpdate ⟨1, [patchP1], []⟩ (some proceedOut)).retry_count = 0 ∧
     (reflectionUpdate ⟨1, [patchP1], []⟩ (some proceedOut)).history = [] ∧
     (reflectionUpdate ⟨1, [patchP1], []⟩ (some proceedOut)).overrides = []) :=
  ⟨rfl, rfl, Or.inl rfl,
   C5_gate_state_update ⟨1, [patchP1], []⟩ retryOutP1 proceedOut patchP1 rfl rfl (Or.inl rfl)⟩

/-! ## Claim C6 -/

/-- C6: in `graph.py` a step executor that raises is recorded as the
synthetic failing result `{"error": str(e)}` whose summary the supervisor
judges, and the step node feeds the supervisor unconditionally — but
`qc_video_node` diverges: on a failed video generation it returns a
hard-coded `retry` without invoking the reflection tool, so the quality
gate (and its retry counting) is bypassed even when the gate would have
escalated. -/
theorem C6_failure_bypasses_gate :
    nodeStepRecord (Except.error "CUDA out of memory") = StepRes.withError "CUDA out of memory" ∧
    resultSummary (some (StepRes.withError "CUDA out of memory"))
      = "Error: " ++ "CUDA out of memory" ∧
    ("step2", "supervisor") ∈ graphEdges ∧
    (qc_video_node (some "CUDA out of memory") "" "fail").gate_invoked = false ∧
    (qc_video_node (some "CUDA out of memory") "" "fail").last_qc_decision = "retry" := by
  decide

/-! ## Claim C7 -/

/-- C7 counterexample (Scenario D): ledger with 1 unit free and threshold
1; with A (footprint 1) loaded, acquiring B (footprint 1) triggers the
low-headroom path yet evicts nothing — the final active set is `[A, B]`,
not `[B]`. -/
theorem C7_counterexample :
    (VRAMState.load_model (VRAMState.load_model ⟨[], 1, 0, 1, 0⟩ "A" 1) "B" 1).names
      = ["A", "B"] ∧
    ¬ (VRAMState.load_model (VRAMState.load_model ⟨[], 1, 0, 1, 0⟩ "A" 1) "B" 1).names
      = ["B"] := by
  decide

/-- C7 (amended): when headroom is below the threshold, acquire runs a
cache-reclamation cleanup that never removes an active resource, and then
loads the new resource regardless: the active set grows by exactly the new
name, and resources leave it only through explicit unloads. -/
theorem C7_no_eviction_amended (st : VRAMState) (name : String) (fp : Int)
    (h : name ∉ st.names) :
    (st.load_model name fp).names = st.names ++ [name] ∧
    st.cleanup.loaded_models = st.loaded_models := by
  refine ⟨?_, rfl⟩
  rw [load_model_not_mem st name fp h]
  simp [VRAMState.names]

/-- Witness for `C7_no_eviction_amended`: loading a second model under low
headroom. -/
theorem C7_no_eviction_amended_witness :
    "ltx2_pro" ∉ (⟨[("qwen_layered", 5)], 2, 1, 8, 1⟩ : VRAMState).names ∧
    ((VRAMState.load_model ⟨[("qwen_layered", 5)], 2, 1, 8, 1⟩ "ltx2_pro" 6).names
        = (⟨[("qwen_layered", 5)], 2, 1, 8, 1⟩ : VRAMState).names ++ ["ltx2_pro"] ∧
     (VRAMState.cleanup ⟨[("qwen_layered", 5)], 2, 1, 8, 1⟩).loaded_models
        = [("qwen_layered", 5)]) :=
  ⟨by decide, C7_no_eviction_amended ⟨[("qwen_layered", 5)], 2, 1, 8, 1⟩ "ltx2_pro" 6 (by decide)⟩

/-! ## Claim C8 -/

/-- C8: acquire is idempotent — starting from a state where the name is
not loaded, the second of two consecutive `load_model` calls returns the
state unchanged, and across the two calls the underlying `loader.load()`
runs exactly once. -/
theorem C8_acquire_idempotent (st : VRAMState) (name : String) (fp fp2 : Int)
    (h : name ∉ st.names) :
    VRAMState.load_model (st.load_model name fp) name fp2 = st.load_model name fp ∧
    (st.load_model name fp).load_calls = st.load_calls + 1 := by
  have hmem : name ∈ (st.load_model name fp).names := by
    rw [load_model_not_mem st name fp h]
    simp [VRAMState.names]
  refine ⟨?_, ?_⟩
  · generalize hs : st.load_model name fp = s1 at hmem
    simp [VRAMState.load_model, hmem]
  · rw [load_model_not_mem st name fp h]

/-- Witness for `C8_acquire_idempotent` on a fresh ledger. -/
theorem C8_acquire_idempotent_witness :
    "qwen_layered" ∉ (⟨[], 24, 0, 8, 0⟩ : VRAMState).names ∧
    (VRAMState.load_model (VRAMState.load_model ⟨[], 24, 0, 8, 0⟩ "qwen_layered" 5)
        "qwen_layered" 5 = VRAMState.load_model ⟨[], 24, 0, 8, 0⟩ "qwen_layered" 5 ∧
     (VRAMState.load_model ⟨[], 24, 0, 8, 0⟩ "qwen_layered" 5).load_calls = 0 + 1) :=
  ⟨by decide, C8_acquire_idempotent ⟨[], 24, 0, 8, 0⟩ "qwen_layered" 5 5 (by decide)⟩

/-! ## Claim C9 -/

/-- C9: when a persisted status exists at subscribe time, the first frame
delivered is the synthesized status snapshot (at sequence number 1), and
all delivered frames carry pairwise strictly increasing sequence numbers —
in particular each live frame's number strictly exceeds its
predecessor's. -/
theorem C9_snapshot_then_ascending (persisted : Option TaskStatus) (s : TaskStatus)
    (msgs : List PubSubMsg) (h : persisted = some s) :
    (wsDeliver persisted msgs).head? = some ⟨1, .statusEvent s.status s.message⟩ ∧
    List.Pairwise (fun a b => a.seq < b.seq) (wsDeliver persisted msgs) := by
  subst h
  refine ⟨rfl, ?_⟩
  simp only [wsDeliver]
  exact List.Pairwise.cons (fun b hb => wsLoop_mem_lt msgs 1 b hb) (wsLoop_pairwise msgs 1)

/-- Witness for `C9_snapshot_then_ascending` on a mid-run snapshot and a
three-message pubsub trace. -/
theorem C9_snapshot_then_ascending_witness :
    some sampleStatus = some sampleStatus ∧
    ((wsDeliver (some sampleStatus) sampleMsgs).head?
        = some ⟨1, .statusEvent sampleStatus.status sampleStatus.message⟩ ∧
     List.Pairwise (fun a b => a.seq < b.seq) (wsDeliver (some sampleStatus) sampleMsgs)) :=
  ⟨rfl, C9_snapshot_then_ascending (some sampleStatus) sampleStatus sampleMsgs rfl⟩

/-! ## Claim C10 -/

/-- C10: `route_next` is total and closed over the step set — it always
answers one of `step1`, `step2`, `step3` or `end`, and any state whose
`next_step` is absent or not one of the three step names is routed to
`end` rather than raising or stalling. -/
theorem C10_route_total (ns m : Option String)
    (h1 : ns ≠ some "step1") (h2 : ns ≠ some "step2") (h3 : ns ≠ some "step3") :
    route_next ns = "end" ∧
    route_next m ∈ (["step1", "step2", "step3", "end"] : List String) := by
  constructor
  · match ns with
    | none => rfl
    | some s =>
        have g1 : s ≠ "step1" := fun hs => h1 (by rw [hs])
        have g2 : s ≠ "step2" := fun hs => h2 (by rw [hs])
        have g3 : s ≠ "step3" := fun hs => h3 (by rw [hs])
        by_cases he : s = "end" <;> simp [route_next, he, g1, g2, g3]
  · match m with
    | none => simp [route_next]
    | some s =>
        by_cases he : s = "end"
        · simp [route_next, he]
        · by_cases hs : s ∈ (["step1", "step2", "step3"] : List String)
          · simp only [route_next, Option.getD, if_neg he, if_pos hs]
            simp only [List.mem_cons] at hs ⊢
            tauto
          · simp [route_next, he, hs]

/-- Witness for `C10_route_total` on the malformed routing value `vision`
(the initial `next_step` the orchestrator seeds) and the valid value
`step2`. -/
theorem C10_route_total_witness :
    some "vision" ≠ some "step1" ∧ some "vision" ≠ some "step2" ∧
    some "vision" ≠ some "step3" ∧
    (route_next (some "vision") = "end" ∧
     route_next (some "step2") ∈ (["step1", "step2", "step3", "end"] : List String)) :=
  ⟨by decide, by decide, by decide,
   C10_route_total (some "vision") (some "step2") (by decide) (by decide) (by decide)⟩

end AdEasy
